import Mathlib

/-!
Verification development for the fnol-agent repository.

This file shallowly embeds the core of the repository (src/config.py,
src/routing_engine.py, src/field_extractor.py, src/acord_parser.py) as
executable Lean definitions and proves properties of the embedding.

Conventions of the embedding:
* Python strings are Lean `String`s, manipulated through their `List Char`
  data (so every operation is kernel-executable).
* Python `float` currency amounts are modelled as exact rationals `ℚ`,
  constructed with `Rat.divInt` (decimal literals such as `"8200"` or
  `"12,500.00"` are exactly representable, so no rounding questions arise
  for the inputs the program manipulates).
* A Python dict of extracted fields is a structure of `Option`-typed
  fields; a key being absent is `none`.  Python truthiness of a value is
  `≠ ""` for strings and `≠ 0` for amounts.
* Python regexes are embedded as explicit syntax trees (`Rx`) evaluated by
  a backtracking matcher that replicates `re.search` semantics (leftmost
  match, priority-ordered alternation, greedy/lazy quantifiers,
  IGNORECASE / MULTILINE / DOTALL flags).  The matcher carries fuel for
  structural termination; the fuel bound is far larger than the recursion
  depth any of the concrete evaluations in this file can reach.
-/

set_option maxRecDepth 10000

/-! ## Python-style string primitives -/

/-- Python whitespace (`str.strip`, `\s`): space, tab, LF, CR, VT, FF. -/
def pyIsSpace (c : Char) : Bool :=
  c = ' ' || c = '\t' || c = '\n' || c = '\r' || c = Char.ofNat 11 || c = Char.ofNat 12

/-- `str.strip()` on the character list. -/
def pyStripList (l : List Char) : List Char :=
  ((l.dropWhile pyIsSpace).reverse.dropWhile pyIsSpace).reverse

/-- Python `value.strip()`. -/
def pyStrip (s : String) : String := String.mk (pyStripList s.data)

/-- Python `str.lower()` (ASCII, which is all the program manipulates). -/
def strLower (s : String) : String := String.mk (s.data.map Char.toLower)

/-- Python `str.upper()`. -/
def strUpper (s : String) : String := String.mk (s.data.map Char.toUpper)

/-- `re.sub(r'\s+', ' ', ·)`: collapse every whitespace run to one space.
The Boolean records whether we are inside a run. -/
def collapseWsAux : Bool → List Char → List Char
  | _, [] => []
  | inRun, c :: rest =>
    if pyIsSpace c then
      if inRun then collapseWsAux true rest
      else ' ' :: collapseWsAux true rest
    else c :: collapseWsAux false rest

/-- `re.sub(r'\s+', ' ', s)`. -/
def collapseWs (s : String) : String := String.mk (collapseWsAux false s.data)

/-- `sub` occurs as a contiguous sublist of the second argument
(Python's `sub in hay`). -/
def isSubList (sub : List Char) : List Char → Bool
  | [] => sub.isEmpty
  | c :: rest => sub.isPrefixOf (c :: rest) || isSubList sub rest

/-- Python `sub in hay` for strings. -/
def containsSub (hay sub : String) : Bool := isSubList sub.data hay.data

/-- Worker for `countSub`; the fuel only bounds recursion depth (one unit
per character examined, so `length + 1` is always enough). -/
def countSubAux (sub : List Char) : Nat → List Char → Nat
  | 0, _ => 0
  | _, [] => 0
  | fu + 1, c :: rest =>
    if sub.isPrefixOf (c :: rest) then
      1 + countSubAux sub fu ((c :: rest).drop sub.length)
    else countSubAux sub fu rest

/-- Python `hay.count(sub)`: non-overlapping occurrences, left to right
(`''.count` conventions included). -/
def countSub (hay sub : String) : Nat :=
  if sub.data.isEmpty then hay.data.length + 1
  else countSubAux sub.data (hay.data.length + 1) hay.data

/-- Worker for `strReplace`. -/
def strReplaceAux (pat rep : List Char) : Nat → List Char → List Char
  | 0, l => l
  | _, [] => []
  | fu + 1, c :: rest =>
    if pat.isPrefixOf (c :: rest) then
      rep ++ strReplaceAux pat rep fu ((c :: rest).drop pat.length)
    else c :: strReplaceAux pat rep fu rest

/-- Python `s.replace(pat, rep)` for non-empty `pat`: replace all
non-overlapping occurrences left to right. -/
def strReplace (s pat rep : String) : String :=
  if pat.data.isEmpty then s
  else String.mk (strReplaceAux pat.data rep.data (s.data.length + 1) s.data)

/-- Python `sep.join(parts)`. -/
def joinStr (sep : String) : List String → String
  | [] => ""
  | [s] => s
  | s :: rest => s ++ sep ++ joinStr sep rest

/-! ## Decimal rendering of amounts (Python `format(x, ',.2f')` etc.) -/

/-- Decimal digits of a natural number (no leading zeros; `0 ↦ "0"`). -/
def natDigits (n : Nat) : List Char := Nat.toDigits 10 n

/-- Insert a comma after every three characters of a reversed digit list. -/
def groupRev : List Char → List Char
  | a :: b :: c :: d :: rest => a :: b :: c :: ',' :: groupRev (d :: rest)
  | l => l

/-- Thousands separators, as in Python's `,` format spec. -/
def groupDigits (l : List Char) : List Char := (groupRev l.reverse).reverse

/-- Two-digit zero-padded rendering of `n < 100`. -/
def pad2 (n : Nat) : String :=
  if n < 10 then "0" ++ String.mk (natDigits n) else String.mk (natDigits n)

/-- Round `q * scale` to the nearest integer, ties to even — the rounding
Python's fixed-point float formatting performs.  Integer arithmetic only,
so the kernel can evaluate it. -/
def rheScaled (q : ℚ) (scale : ℕ) : ℤ :=
  let n : ℤ := q.num * (scale : ℤ)
  let d : ℤ := (q.den : ℤ)
  let k := Int.fdiv n d
  let r := n - k * d
  if 2 * r < d then k
  else if d < 2 * r then k + 1
  else if k % 2 = 0 then k else k + 1

/-- Python `f"{q:,.2f}"`. -/
def format2 (q : ℚ) : String :=
  let n := rheScaled q 100
  let m := n.natAbs
  (if n < 0 then "-" else "") ++
    String.mk (groupDigits (natDigits (m / 100))) ++ "." ++ pad2 (m % 100)

/-- Python `f"{q:,.0f}"`. -/
def format0 (q : ℚ) : String :=
  let n := rheScaled q 1
  let m := n.natAbs
  (if n < 0 then "-" else "") ++ String.mk (groupDigits (natDigits m))

/-! ## src/config.py -/

namespace Config

/-- config.py line 14. -/
def FAST_TRACK_THRESHOLD : ℚ := 25000

/-- config.py lines 17–22. -/
def FRAUD_KEYWORDS : List String :=
  ["fraud", "fraudulent", "false", "fake", "staged", "setup",
   "inconsistent", "contradict", "lie", "lied", "lying",
   "misrepresent", "exaggerat", "inflated", "suspicious",
   "fabricated", "concocted", "scam", "scheme"]

/-- config.py lines 25–30. -/
def INJURY_KEYWORDS : List String :=
  ["injury", "injured", "hurt", "pain", "hospital",
   "ambulance", "medical", "doctor", "fracture", "broken",
   "whiplash", "concussion", "bleeding", "wound", "laceration",
   "surgery", "therapy", "treatment", "paramedic", "emergency"]

/-- config.py lines 33–41. -/
def REQUIRED_FIELDS : List String :=
  ["policy_number", "policyholder_name", "date_of_loss", "location",
   "description", "estimated_damage", "claim_type"]

end Config

/-! ## The extracted-fields dictionary

The keys a document can ever acquire are the 15 catalog fields of
`FieldExtractor.PATTERNS`, `claim_type` (set by post-processing), the five
vehicle-info keys and the two contact-info keys.  A Python dict over this
fixed vocabulary is a structure of `Option`s.  Currency-valued fields
(`estimated_damage`, `estimate_amount`, `initial_estimate`) hold `ℚ`,
everything else holds `String`. -/

structure ExtractedFields where
  policy_number     : Option String := none
  policyholder_name : Option String := none
  effective_dates   : Option String := none
  date_of_loss      : Option String := none
  time_of_loss      : Option String := none
  location          : Option String := none
  description       : Option String := none
  asset_type        : Option String := none
  asset_id          : Option String := none
  estimated_damage  : Option ℚ := none
  estimate_amount   : Option ℚ := none
  claimant          : Option String := none
  contact_details   : Option String := none
  attachments       : Option String := none
  initial_estimate  : Option ℚ := none
  claim_type        : Option String := none
  year              : Option String := none
  make              : Option String := none
  model             : Option String := none
  vin               : Option String := none
  plate_number      : Option String := none
  contact_phone     : Option String := none
  contact_email     : Option String := none
deriving DecidableEq

/-! ## src/routing_engine.py -/

namespace RoutingEngine

/-- routing_engine.py lines 95–125, `RoutingEngine._check_additional_factors`. -/
def check_additional_factors (extracted_fields : ExtractedFields) : List String :=
  let description := strLower (extracted_fields.description.getD "")
  (if countSub description "vehicle" > 1 || countSub description "car" > 1 then
    ["Multiple vehicles involved"] else []) ++
  (if containsSub description "hit and run" || containsSub description "hit & run" then
    ["Hit-and-run incident"] else []) ++
  (if ["commercial", "truck", "semi", "fleet", "business"].any
      (fun word => containsSub description word) then
    ["Commercial vehicle involved"] else []) ++
  (if ["previous", "prior", "last claim", "before"].any
      (fun word => containsSub description word) then
    ["Reference to previous claims"] else [])

/-- routing_engine.py lines 13–93, `RoutingEngine.determine_route`.
Rules are evaluated top to bottom with early return, exactly as in the
source; the final damage-threshold branch appends the additional-factor
fragments before joining with `". "`. -/
def determine_route (extracted_fields : ExtractedFields)
    (missing_fields : List String) : String × String :=
  -- Rule 1: missing mandatory fields
  if missing_fields ≠ [] then
    ("Manual Review", "Missing required fields: " ++ joinStr ", " missing_fields)
  else
    let description := strLower (extracted_fields.description.getD "")
    let damage := extracted_fields.estimated_damage.getD 0
    let claim_type := extracted_fields.claim_type.getD "property_damage"
    -- Rule 2: fraud indicators
    let fraud_keywords_found :=
      Config.FRAUD_KEYWORDS.filter (fun keyword => containsSub description keyword)
    if fraud_keywords_found ≠ [] then
      ("Investigation Flag",
        "Fraud indicators detected: " ++ joinStr ", " (fraud_keywords_found.take 3))
    else if claim_type = "injury" then
      -- Rule 3: injury claims
      let injury_keywords :=
        Config.INJURY_KEYWORDS.filter (fun keyword => containsSub description keyword)
      if injury_keywords ≠ [] then
        ("Specialist Queue",
          "Injury claim with indicators: " ++ joinStr ", " (injury_keywords.take 3))
      else
        ("Specialist Queue", "Injury claim type identified")
    else
      -- Rule 4: damage amount, then additional factors
      let base : String × String :=
        if 0 < damage then
          if damage < Config.FAST_TRACK_THRESHOLD then
            ("Fast-track",
              "Estimated damage ($" ++ format2 damage ++ ") is below $" ++
                format0 Config.FAST_TRACK_THRESHOLD ++ " threshold")
          else
            ("Standard Processing",
              "Estimated damage ($" ++ format2 damage ++ ") meets or exceeds $" ++
                format0 Config.FAST_TRACK_THRESHOLD ++ " threshold")
        else
          ("Manual Review", "Damage amount not specified or could not be extracted")
      (base.1, joinStr ". " (base.2 :: check_additional_factors extracted_fields))

end RoutingEngine

/-! ## Embedded regular expressions (Python `re`)

Only the constructs actually appearing in the repository's patterns are
embedded: literals, character classes, `.`, concatenation, alternation,
greedy and lazy `*` `+` `?` and counted repetition, capturing groups,
lookahead `(?=...)`, `$` and `\Z`, under the IGNORECASE / MULTILINE /
DOTALL flags the source passes at each call site. -/

/-- One member of a character class: a single character or a range. -/
inductive CItem where
  | ch (c : Char)
  | rg (lo hi : Char)

/-- Regex syntax tree. -/
inductive Rx where
  | eps
  | lit (c : Char)
  | cls (items : List CItem)
  | anyC
  | seqR (a b : Rx)
  | altR (a b : Rx)
  | starR (greedy : Bool) (a : Rx)
  | grp (i : Nat) (a : Rx)
  | la (a : Rx)
  | eol
  | endS

/-- Flags of `re.compile`. -/
structure ReFlags where
  ignoreCase : Bool := false
  multiline : Bool := false
  dotAll : Bool := false

def citemTest (c : Char) : CItem → Bool
  | .ch a => c = a
  | .rg lo hi => lo ≤ c && c ≤ hi

/-- Class membership; under IGNORECASE a character also matches through
its case counterpart, as in Python. -/
def clsTest (fl : ReFlags) (items : List CItem) (c : Char) : Bool :=
  items.any (citemTest c) ||
    (fl.ignoreCase &&
      (items.any (citemTest c.toLower) || items.any (citemTest c.toUpper)))

def litTest (fl : ReFlags) (p c : Char) : Bool :=
  c = p || (fl.ignoreCase && c.toLower = p.toLower)

/-- Captured groups: latest binding for an index first. -/
abbrev Caps := List (Nat × List Char)

/-- Backtracking matcher in continuation-passing style.  `s` is the
remaining suffix of the subject; alternatives are tried in Python's
priority order (left branch of `altR` first, greedy stars longest first,
lazy stars shortest first).  A starred body must consume at least one
character per iteration, which Python's engine also enforces when an
iteration matches the empty string.  The fuel only bounds the frame
nesting depth and is chosen far above what any evaluation here needs. -/
def mrx (fl : ReFlags) :
    Nat → Rx → List Char → Caps →
    (List Char → Caps → Option (List Char × Caps)) → Option (List Char × Caps)
  | 0, _, _, _, _ => none
  | fu + 1, rx, s, caps, k =>
    match rx with
    | .eps => k s caps
    | .lit c =>
      match s with
      | [] => none
      | d :: rest => if litTest fl c d then k rest caps else none
    | .cls items =>
      match s with
      | [] => none
      | d :: rest => if clsTest fl items d then k rest caps else none
    | .anyC =>
      match s with
      | [] => none
      | d :: rest => if fl.dotAll || d ≠ '\n' then k rest caps else none
    | .seqR a b => mrx fl fu a s caps (fun s1 caps1 => mrx fl fu b s1 caps1 k)
    | .altR a b =>
      match mrx fl fu a s caps k with
      | some r => some r
      | none => mrx fl fu b s caps k
    | .starR greedy a =>
      if greedy then
        match mrx fl fu a s caps (fun s1 caps1 =>
            if s1.length < s.length then mrx fl fu (.starR greedy a) s1 caps1 k
            else none) with
        | some r => some r
        | none => k s caps
      else
        match k s caps with
        | some r => some r
        | none =>
          mrx fl fu a s caps (fun s1 caps1 =>
            if s1.length < s.length then mrx fl fu (.starR greedy a) s1 caps1 k
            else none)
    | .grp i a =>
      mrx fl fu a s caps (fun s1 caps1 =>
        k s1 ((i, s.take (s.length - s1.length)) :: caps1))
    | .la a =>
      match mrx fl fu a s caps (fun s1 caps1 => some (s1, caps1)) with
      | some (_, caps1) => k s caps1
      | none => none
    | .eol =>
      if fl.multiline then
        match s with
        | [] => k s caps
        | c :: _ => if c = '\n' then k s caps else none
      else
        match s with
        | [] => k s caps
        | ['\n'] => k s caps
        | _ => none
    | .endS =>
      match s with
      | [] => k s caps
      | _ => none

/-- A successful `re.search`: the matched text (`group(0)`) and the
captured groups. -/
structure ReMatch where
  whole : List Char
  caps : Caps

def searchFuel (s : List Char) : Nat := (s.length + 1) * 1000 + 1000

/-- Attempt a match anchored at the start of suffix `s`. -/
def tryAt (fl : ReFlags) (rx : Rx) (s : List Char) : Option ReMatch :=
  match mrx fl (searchFuel s) rx s [] (fun s1 caps1 => some (s1, caps1)) with
  | some (s1, caps1) => some ⟨s.take (s.length - s1.length), caps1⟩
  | none => none

/-- `re.search`: try each start position left to right. -/
def searchAux (fl : ReFlags) (rx : Rx) : List Char → Option ReMatch
  | [] => tryAt fl rx []
  | c :: rest =>
    match tryAt fl rx (c :: rest) with
    | some m => some m
    | none => searchAux fl rx rest

def reSearch (fl : ReFlags) (rx : Rx) (s : String) : Option ReMatch :=
  searchAux fl rx s.data

/-- `match.group(i)`: `none` when the group did not participate. -/
def capGet (m : ReMatch) (i : Nat) : Option (List Char) :=
  (m.caps.find? (fun p => p.1 = i)).map (fun p => p.2)

/-- Number of capturing groups of a pattern (`re.groups`). -/
def maxGrp : Rx → Nat
  | .seqR a b => max (maxGrp a) (maxGrp b)
  | .altR a b => max (maxGrp a) (maxGrp b)
  | .starR _ a => maxGrp a
  | .la a => maxGrp a
  | .grp i a => max i (maxGrp a)
  | _ => 0

/-! Derived constructors mirroring regex notation. -/

/-- `a?` (greedy when the flag is true). -/
def optR (greedy : Bool) (a : Rx) : Rx :=
  if greedy then .altR a .eps else .altR .eps a

/-- `a+`. -/
def plusR (greedy : Bool) (a : Rx) : Rx := .seqR a (.starR greedy a)

def seqL : List Rx → Rx
  | [] => .eps
  | [r] => r
  | r :: rest => .seqR r (seqL rest)

def altL : List Rx → Rx
  | [] => .eps
  | [r] => r
  | r :: rest => .altR r (altL rest)

/-- A literal string. -/
def chSeq (s : String) : Rx := seqL (s.data.map Rx.lit)

/-- `a{n}`. -/
def repE : Nat → Rx → Rx
  | 0, _ => .eps
  | n + 1, a => .seqR a (repE n a)

/-- `a{n,}` (greedy). -/
def repAL (n : Nat) (a : Rx) : Rx := .seqR (repE n a) (.starR true a)

def optChain (a : Rx) : Nat → Rx
  | 0 => .eps
  | n + 1 => optR true (.seqR a (optChain a n))

/-- `a{lo,hi}` (greedy). -/
def repRange (lo hi : Nat) (a : Rx) : Rx := .seqR (repE lo a) (optChain a (hi - lo))

/-! Shorthand classes. -/

def wsItems : List CItem :=
  [.ch ' ', .ch '\t', .ch '\n', .ch '\r', .ch (Char.ofNat 11), .ch (Char.ofNat 12)]

/-- `\s`. -/
def clsWs : Rx := .cls wsItems

/-- `\s*`. -/
def wsStar : Rx := .starR true (.cls wsItems)

/-- `\s+`. -/
def wsPlus : Rx := plusR true (.cls wsItems)

def digItem : CItem := .rg '0' '9'

/-- `\d` / `[0-9]`. -/
def clsDigit : Rx := .cls [digItem]

/-- `[:\s]`. -/
def colonWsCls : Rx := .cls (.ch ':' :: wsItems)

/-- `[:\s]+`. -/
def colonWsPlus : Rx := plusR true colonWsCls

/-- `[:\s]*`. -/
def colonWsStar : Rx := .starR true colonWsCls

/-! ## src/field_extractor.py — value coercion -/

namespace FieldExtractor

/-- field_extractor.py line 281: `re.sub(r'[^\d.]', '', amount_str)`. -/
def stripNonNumeric (s : String) : String :=
  String.mk (s.data.filter (fun c => c.isDigit || c = '.'))

/-- The strings Python's `float()` accepts after `stripNonNumeric` (only
digits and dots remain, so: at least one digit and at most one dot). -/
def isFloatLit (s : String) : Bool :=
  s.data.any Char.isDigit && (s.data.filter (fun c => c = '.')).length ≤ 1

def digitsToNat (l : List Char) : Nat :=
  l.foldl (fun acc c => 10 * acc + (c.toNat - 48)) 0

/-- Exact value of a decimal literal composed of digits and at most one
dot.  Built with `Rat.divInt`, integer arithmetic only. -/
def decimalVal (s : String) : ℚ :=
  let intPart := s.data.takeWhile (fun c => c ≠ '.')
  let fracPart := (s.data.dropWhile (fun c => c ≠ '.')).drop 1
  Rat.divInt
    ((digitsToNat intPart * 10 ^ fracPart.length + digitsToNat fracPart : ℕ) : ℤ)
    ((10 ^ fracPart.length : ℕ) : ℤ)

/-- field_extractor.py lines 268–286, `FieldExtractor._parse_amount`.
`float(clean_str)` raising (no digit, or more than one dot) is the
swallowed exception path; every failure yields `0.0`. -/
def parseAmount (amount_str : String) : ℚ :=
  let clean_str := stripNonNumeric amount_str
  if clean_str ≠ "" && isFloatLit clean_str then decimalVal clean_str else 0

/-! ### `_parse_date` (lines 288–319), a faithful model of the
`datetime.strptime` formats the source tries in order. -/

/-- One token of a `strptime` format string. -/
inductive FTok where
  | lit (c : Char)
  | monthName
  | monthAbbr
  | dayNum
  | monthNum
  | year4
  | year2
  | hour12
  | minute
  | ampm

structure DateAcc where
  year : Nat := 1900
  month : Nat := 1
  day : Nat := 1

def monthNames : List (Nat × String) :=
  [(1, "January"), (2, "February"), (3, "March"), (4, "April"),
   (5, "May"), (6, "June"), (7, "July"), (8, "August"),
   (9, "September"), (10, "October"), (11, "November"), (12, "December")]

def monthAbbrs : List (Nat × String) :=
  [(1, "Jan"), (2, "Feb"), (3, "Mar"), (4, "Apr"), (5, "May"), (6, "Jun"),
   (7, "Jul"), (8, "Aug"), (9, "Sep"), (10, "Oct"), (11, "Nov"), (12, "Dec")]

/-- Case-insensitive literal prefix test (strptime compiles with
IGNORECASE). -/
def ciIsPrefix (pat s : List Char) : Bool :=
  (pat.map Char.toLower).isPrefixOf (s.map Char.toLower)

def digitVal (c : Char) : Nat := c.toNat - 48

/-- `%d`: CPython regex `(3[01]|[12]\d|0[1-9]|[1-9])`. -/
def parseDayNum : List Char → Option (Nat × List Char)
  | a :: b :: rest =>
    if a.isDigit && b.isDigit then
      let n := digitVal a * 10 + digitVal b
      if 1 ≤ n && n ≤ 31 then some (n, rest)
      else if 1 ≤ digitVal a && digitVal a ≤ 9 then some (digitVal a, b :: rest)
      else none
    else if a.isDigit && 1 ≤ digitVal a then some (digitVal a, b :: rest)
    else none
  | [a] => if a.isDigit && 1 ≤ digitVal a then some (digitVal a, []) else none
  | [] => none

/-- `%m` and `%I`: CPython regex `(1[0-2]|0[1-9]|[1-9])`. -/
def parseMonthNum : List Char → Option (Nat × List Char)
  | a :: b :: rest =>
    if a.isDigit && b.isDigit then
      let n := digitVal a * 10 + digitVal b
      if 1 ≤ n && n ≤ 12 then some (n, rest)
      else if 1 ≤ digitVal a && digitVal a ≤ 9 then some (digitVal a, b :: rest)
      else none
    else if a.isDigit && 1 ≤ digitVal a then some (digitVal a, b :: rest)
    else none
  | [a] => if a.isDigit && 1 ≤ digitVal a then some (digitVal a, []) else none
  | [] => none

/-- `%M`: CPython regex `([0-5]\d|\d)`. -/
def parseMinute : List Char → Option (Nat × List Char)
  | a :: b :: rest =>
    if a.isDigit && b.isDigit && digitVal a ≤ 5 then
      some (digitVal a * 10 + digitVal b, rest)
    else if a.isDigit then some (digitVal a, b :: rest)
    else none
  | [a] => if a.isDigit then some (digitVal a, []) else none
  | [] => none

/-- `%Y`: exactly four digits. -/
def parseYear4 : List Char → Option (Nat × List Char)
  | a :: b :: c :: d :: rest =>
    if a.isDigit && b.isDigit && c.isDigit && d.isDigit then
      some (digitVal a * 1000 + digitVal b * 100 + digitVal c * 10 + digitVal d, rest)
    else none
  | _ => none

/-- `%y`: exactly two digits; 00–68 ↦ 2000–2068, 69–99 ↦ 1969–1999. -/
def parseYear2 : List Char → Option (Nat × List Char)
  | a :: b :: rest =>
    if a.isDigit && b.isDigit then
      let n := digitVal a * 10 + digitVal b
      some ((if n ≤ 68 then 2000 + n else 1900 + n), rest)
    else none
  | _ => none

def findMonth (table : List (Nat × String)) (s : List Char) : Option (Nat × List Char) :=
  table.findSome? (fun p =>
    if ciIsPrefix p.2.data s then some (p.1, s.drop p.2.data.length) else none)

/-- Run a format over the input; the whole input must be consumed
(`strptime` rejects unconverted trailing data).  A literal space in the
format matches one or more whitespace characters, as in CPython. -/
def runFmt : List FTok → List Char → DateAcc → Option DateAcc
  | [], s, acc => if s.isEmpty then some acc else none
  | tok :: fmtRest, s, acc =>
    match tok with
    | .lit c =>
      if c = ' ' then
        let s1 := s.dropWhile pyIsSpace
        if s1.length < s.length then runFmt fmtRest s1 acc else none
      else
        match s with
        | d :: s1 => if d = c then runFmt fmtRest s1 acc else none
        | [] => none
    | .monthName =>
      match findMonth monthNames s with
      | some (m, s1) => runFmt fmtRest s1 { acc with month := m }
      | none => none
    | .monthAbbr =>
      match findMonth monthAbbrs s with
      | some (m, s1) => runFmt fmtRest s1 { acc with month := m }
      | none => none
    | .dayNum =>
      match parseDayNum s with
      | some (d, s1) => runFmt fmtRest s1 { acc with day := d }
      | none => none
    | .monthNum =>
      match parseMonthNum s with
      | some (m, s1) => runFmt fmtRest s1 { acc with month := m }
      | none => none
    | .year4 =>
      match parseYear4 s with
      | some (y, s1) => runFmt fmtRest s1 { acc with year := y }
      | none => none
    | .year2 =>
      match parseYear2 s with
      | some (y, s1) => runFmt fmtRest s1 { acc with year := y }
      | none => none
    | .hour12 =>
      match parseMonthNum s with
      | some (_, s1) => runFmt fmtRest s1 acc
      | none => none
    | .minute =>
      match parseMinute s with
      | some (_, s1) => runFmt fmtRest s1 acc
      | none => none
    | .ampm =>
      if ciIsPrefix "AM".data s || ciIsPrefix "PM".data s then
        runFmt fmtRest (s.drop 2) acc
      else none

def isLeapYear (y : Nat) : Bool := y % 4 = 0 && (y % 100 ≠ 0 || y % 400 = 0)

def daysInMonth (y m : Nat) : Nat :=
  if m = 2 then (if isLeapYear y then 29 else 28)
  else if m = 4 || m = 6 || m = 9 || m = 11 then 30
  else 31

def pad4 (n : Nat) : String :=
  if n < 10 then "000" ++ String.mk (natDigits n)
  else if n < 100 then "00" ++ String.mk (natDigits n)
  else if n < 1000 then "0" ++ String.mk (natDigits n)
  else String.mk (natDigits n)

/-- Try one format: regex match, then `datetime(...)` validation, then
`strftime('%Y-%m-%d')`. -/
def tryFmt (fmt : List FTok) (s : String) : Option String :=
  match runFmt fmt s.data {} with
  | some acc =>
    if 1 ≤ acc.year && 1 ≤ acc.day && acc.day ≤ daysInMonth acc.year acc.month then
      some (pad4 acc.year ++ "-" ++ pad2 acc.month ++ "-" ++ pad2 acc.day)
    else none
  | none => none

/-- field_extractor.py lines 301–308: the ordered `month_formats` list. -/
def dateFormats : List (List FTok) :=
  [ [.monthName, .lit ' ', .dayNum, .lit ',', .lit ' ', .year4],
    [.monthAbbr, .lit ' ', .dayNum, .lit ',', .lit ' ', .year4],
    [.monthName, .lit ' ', .dayNum, .lit ',', .lit ' ', .year4, .lit ' ',
      .hour12, .lit ':', .minute, .lit ' ', .ampm],
    [.monthNum, .lit '/', .dayNum, .lit '/', .year4],
    [.monthNum, .lit '/', .dayNum, .lit '/', .year2],
    [.dayNum, .lit '/', .monthNum, .lit '/', .year4],
    [.dayNum, .lit '/', .monthNum, .lit '/', .year2],
    [.year4, .lit '-', .monthNum, .lit '-', .dayNum],
    [.dayNum, .lit '-', .monthNum, .lit '-', .year4] ]

/-- field_extractor.py lines 288–319, `FieldExtractor._parse_date`. -/
def parseDate (date_str : String) : String :=
  match dateFormats.findSome? (fun f => tryFmt f date_str) with
  | some out => out
  | none => date_str

/-! ### `_clean_description` (lines 321–365) -/

def isSentDelim (c : Char) : Bool := c = '.' || c = '!' || c = '?'

/-- `re.split(r'[.!?]+', s)`: split on maximal delimiter runs.  The
Boolean records whether the previous character was a delimiter. -/
def splitSentGo : List Char → Bool → List Char → List (List Char)
  | acc, _, [] => [acc.reverse]
  | acc, inD, c :: rest =>
    if isSentDelim c then
      if inD then splitSentGo acc true rest
      else acc.reverse :: splitSentGo [] true rest
    else splitSentGo (c :: acc) false rest

def splitSentences (s : String) : List String :=
  (splitSentGo [] false s.data).map String.mk

/-- Lines 357–362: accumulate sentences while the running length stays
under 1500, stopping at the first one that does not fit. -/
def accumSentences : String → List String → String
  | trimmed, [] => trimmed
  | trimmed, sentence :: rest =>
    if (trimmed ++ sentence).length < 1500 then
      accumSentences (trimmed ++ sentence ++ ".") rest
    else trimmed

def isStripPunct (c : Char) : Bool := c = ':' || c = '.' || c = '-' || pyIsSpace c

/-- Line 343–348: the fixed OCR-correction table, applied in order. -/
def ocrTable : List (String × String) :=
  [("Iight", "light"), ("poIe", "pole"), ("Iot", "lot"), ("corners", "corners")]

def applyOcr (s : String) : String :=
  ocrTable.foldl (fun acc p => strReplace acc p.1 p.2) s

def pyTake (s : String) (n : Nat) : String := String.mk (s.data.take n)

/-- Lines 332–351 of `_clean_description`: everything before the
length-limiting step. -/
def cleanDescCore (desc : String) : String :=
  if desc = "" then ""
  else
    let d1 := collapseWs (pyStrip desc)
    let d2 := String.mk (d1.data.dropWhile isStripPunct)
    let d3 := String.mk (d2.data.reverse.dropWhile isStripPunct).reverse
    applyOcr d3

/-- field_extractor.py lines 321–365, `FieldExtractor._clean_description`. -/
def cleanDescription (desc : String) : String :=
  let d := cleanDescCore desc
  if d.length > 2000 then
    let trimmed := accumSentences "" (splitSentences d)
    if trimmed ≠ "" then trimmed else pyTake d 1500 ++ "..."
  else d

/-! ### name cleaning inside `_clean_field_value` (lines 261–264) -/

/-- `re.sub(r'\s+[A-Z]\.?$', '', value)`: drop a trailing single initial
(with optional dot) together with the whitespace before it. -/
def stripTrailInitial (s : String) : String :=
  let r := s.data.reverse
  let r1 := match r with
    | '.' :: rest => rest
    | _ => r
  match r1 with
  | c :: rest =>
    if ('A' ≤ c && c ≤ 'Z') && rest.takeWhile pyIsSpace ≠ [] then
      String.mk (rest.dropWhile pyIsSpace).reverse
    else s
  | [] => s

def suffixTokens : List String := ["JR", "SR", "II", "III", "IV", "V"]

/-- `re.sub(r'\s+(?:JR|SR|II|III|IV|V)$', '', value, flags=IGNORECASE)`. -/
def stripTrailSuffix (s : String) : String :=
  let r := s.data.reverse
  let w := r.takeWhile (fun c => !pyIsSpace c)
  let rest := r.drop w.length
  let word := strUpper (String.mk w.reverse)
  if rest.takeWhile pyIsSpace ≠ [] && suffixTokens.contains word then
    String.mk (rest.dropWhile pyIsSpace).reverse
  else s

def cleanName (v : String) : String := stripTrailSuffix (stripTrailInitial v)

/-- Line 250 of `_clean_field_value`: `re.sub(r'\s+', ' ', value.strip())`. -/
def cleanedValue (v : String) : String := collapseWs (pyStrip v)

/-! ### `_infer_claim_type` (lines 411–469) -/

/-- field_extractor.py lines 411–469, `FieldExtractor._infer_claim_type`. -/
def inferClaimType (description : String) : String :=
  if description = "" then "property_damage"
  else
    let desc_lower := strLower description
    if ["injury", "injured", "hurt", "pain", "hospital",
        "ambulance", "medical", "whiplash", "fracture",
        "broken bone", "concussion", "emergency room", "er"].any
        (fun kw => containsSub desc_lower kw) then "injury"
    else if ["stolen", "theft", "robbery", "burglary", "break-in",
             "missing vehicle", "car stolen", "auto theft"].any
        (fun kw => containsSub desc_lower kw) then "theft"
    else if ["fire", "burned", "arson", "smoke", "flame", "ignite"].any
        (fun kw => containsSub desc_lower kw) then "fire"
    else if ["flood", "water", "leak", "pipe burst", "rain",
             "storm", "hurricane", "flooding"].any
        (fun kw => containsSub desc_lower kw) then "water_damage"
    else if ["vandal", "graffiti", "broken window", "keyed",
             "scratched", "malicious", "intentional"].any
        (fun kw => containsSub desc_lower kw) then "vandalism"
    else if ["vehicle", "car", "truck", "auto", "accident",
             "collision", "crash", "wreck", "rear-end", "bumper"].any
        (fun kw => containsSub desc_lower kw) then "vehicle_damage"
    else "property_damage"

end FieldExtractor

/-! ## src/field_extractor.py — the pattern catalog (lines 16–153)

Each Python regex is transcribed into an `Rx` tree.  A `none` entry is a
pattern whose compilation raises in Python (the generic policy-number
pattern uses a variable-width look-behind, which `re.compile` rejects);
`_extract_with_patterns` swallows the exception and skips the pattern. -/

namespace Patterns

def alnumAZ : List CItem := [.rg 'A' 'Z', .rg '0' '9']

def itemsAlpha : List CItem := [.rg 'A' 'Z', .rg 'a' 'z']

def alphaWs : List CItem := itemsAlpha ++ wsItems

/-- `(?=\s|$|\n)`. -/
def lookEnd : Rx := .la (altL [clsWs, .eol, .lit '\n'])

/-- `([A-Z0-9\-_]+[A-Z0-9])`. -/
def policyGrp : Rx :=
  .grp 1 (seqL [plusR true (.cls [.rg 'A' 'Z', .rg '0' '9', .ch '-', .ch '_']),
                .cls alnumAZ])

def policy_number : List (Option Rx) :=
  [ some (seqL [chSeq "Policy", wsStar, chSeq "Number", colonWsPlus, policyGrp, lookEnd]),
    some (seqL [chSeq "POLICY", wsStar, chSeq "NUMBER", colonWsPlus, policyGrp, lookEnd]),
    some (seqL [chSeq "Policy", wsStar, .lit '#', colonWsPlus, policyGrp, lookEnd]),
    some (seqL [chSeq "POLICY", colonWsPlus, policyGrp, lookEnd]),
    none ]

/-- `([A-Z][a-zA-Z\s]+?)`. -/
def nameGrp : Rx :=
  .grp 1 (seqL [.cls [.rg 'A' 'Z'], plusR false (.cls alphaWs)])

/-- `(?=\s*\n|\s*$)`. -/
def lookNlEnd : Rx :=
  .la (altL [seqL [wsStar, .lit '\n'], seqL [wsStar, .eol]])

def policyholder_name : List (Option Rx) :=
  [ some (seqL [chSeq "Policyholder", wsStar, chSeq "Name", colonWsPlus, nameGrp,
      .la (altL [seqL [wsStar, .lit '\n'], seqL [wsStar, .eol],
                 seqL [wsStar, .cls [.rg 'A' 'Z']]])]),
    some (seqL [chSeq "NAME", wsStar, chSeq "OF", wsStar, chSeq "INSURED",
      colonWsPlus, nameGrp, lookNlEnd]),
    some (seqL [chSeq "Named", wsStar, chSeq "Insured", colonWsPlus, nameGrp, lookNlEnd]),
    some (seqL [chSeq "Insured", wsStar, chSeq "Name", colonWsPlus, nameGrp, lookNlEnd]),
    some (seqL [chSeq "Name", colonWsPlus, nameGrp,
      .la (altL [seqL [wsStar, .lit '\n'], seqL [wsStar, clsDigit],
                 seqL [wsStar, repAL 2 (.cls [.rg 'A' 'Z'])]])]),
    some (seqL [chSeq "CLAIMANT", colonWsPlus, nameGrp, lookNlEnd]) ]

/-- `([0-9]{1,2}/[0-9]{1,2}/[0-9]{4})`. -/
def slashDateGrp : Rx :=
  .grp 1 (seqL [repRange 1 2 clsDigit, .lit '/', repRange 1 2 clsDigit, .lit '/',
                repE 4 clsDigit])

def effective_dates : List (Option Rx) :=
  [ some (seqL [chSeq "Effective", wsStar, chSeq "Date", colonWsPlus, slashDateGrp]),
    some (seqL [chSeq "Policy", wsStar, chSeq "Period", colonWsPlus, slashDateGrp]),
    some (seqL [chSeq "Coverage", wsStar, chSeq "Dates", colonWsPlus, slashDateGrp]) ]

/-- `([A-Z][a-z]+\s+\d{1,2},\s+\d{4})`. -/
def monthDateGrp : Rx :=
  .grp 1 (seqL [.cls [.rg 'A' 'Z'], plusR true (.cls [.rg 'a' 'z']), wsPlus,
                repRange 1 2 clsDigit, .lit ',', wsPlus, repE 4 clsDigit])

def date_of_loss : List (Option Rx) :=
  [ some (seqL [chSeq "Date", wsStar, chSeq "of", wsStar, chSeq "Loss",
      colonWsPlus, monthDateGrp]),
    some (seqL [chSeq "DATE", wsStar, chSeq "OF", wsStar, chSeq "LOSS",
      colonWsPlus, slashDateGrp]),
    some (seqL [chSeq "Date", colonWsPlus, monthDateGrp]),
    some (seqL [chSeq "Loss", wsStar, chSeq "Date", colonWsPlus, slashDateGrp]),
    some (seqL [chSeq "Incident", wsStar, chSeq "Date", colonWsPlus, slashDateGrp]) ]

/-- `(\d{1,2}:\d{2}\s*[AP]M)`. -/
def timeGrp : Rx :=
  .grp 1 (seqL [repRange 1 2 clsDigit, .lit ':', repE 2 clsDigit, wsStar,
                .cls [.ch 'A', .ch 'P'], .lit 'M'])

def time_of_loss : List (Option Rx) :=
  [ some (seqL [chSeq "Time", colonWsPlus, timeGrp]),
    some (seqL [chSeq "Time", wsStar, chSeq "of", wsStar, chSeq "Loss",
      colonWsPlus, timeGrp]),
    some (seqL [timeGrp,
      .la (altL [seqL [wsStar, chSeq "on"], seqL [wsStar, chSeq "date"]])]) ]

/-- `(.*?)`. -/
def lazyDotGrp : Rx := .grp 1 (.starR false .anyC)

/-- `(?=\s*\n[A-Z]|\s*\n\d|\s*$)`. -/
def locLook : Rx :=
  .la (altL [seqL [wsStar, .lit '\n', .cls [.rg 'A' 'Z']],
             seqL [wsStar, .lit '\n', clsDigit],
             seqL [wsStar, .eol]])

def location : List (Option Rx) :=
  [ some (seqL [chSeq "Location", colonWsPlus, lazyDotGrp, locLook]),
    some (seqL [chSeq "LOCATION", wsStar, chSeq "OF", wsStar, chSeq "LOSS",
      colonWsPlus, lazyDotGrp, locLook]),
    some (seqL [chSeq "Address", colonWsPlus, lazyDotGrp, locLook]),
    some (seqL [chSeq "STREET", colonWsPlus, lazyDotGrp, locLook]) ]

/-- `(?=\n[A-Z]{2,}|\n\d|\n\n|\Z)`. -/
def descLook : Rx :=
  .la (altL [seqL [.lit '\n', repAL 2 (.cls [.rg 'A' 'Z'])],
             seqL [.lit '\n', clsDigit],
             chSeq "\n\n", .endS])

/-- `(?=\n1\.|\n[A-Z]{2,}|\n\d|\Z)`. -/
def descLookAcord : Rx :=
  .la (altL [chSeq "\n1.",
             seqL [.lit '\n', repAL 2 (.cls [.rg 'A' 'Z'])],
             seqL [.lit '\n', clsDigit],
             .endS])

def description : List (Option Rx) :=
  [ some (seqL [chSeq "Description", colonWsPlus, lazyDotGrp, descLook]),
    some (seqL [chSeq "DESCRIPTION", colonWsPlus, lazyDotGrp, descLook]),
    some (seqL [chSeq "Loss", wsStar, chSeq "Description", colonWsPlus,
      lazyDotGrp, descLook]),
    some (seqL [chSeq "Remarks", colonWsPlus, lazyDotGrp, descLook]),
    some (seqL [chSeq "DESCRIPTION", wsStar, chSeq "OF", wsStar,
      altL [chSeq "ACCIDENT", chSeq "LOSS", chSeq "INCIDENT"],
      colonWsPlus, lazyDotGrp, descLookAcord]) ]

/-- `([A-Za-z\s]+)`. -/
def alphaWsGrp : Rx := .grp 1 (plusR true (.cls alphaWs))

def asset_type : List (Option Rx) :=
  [ some (seqL [chSeq "Vehicle", wsStar, chSeq "Type", colonWsPlus, alphaWsGrp]),
    some (seqL [chSeq "Asset", wsStar, chSeq "Type", colonWsPlus, alphaWsGrp]),
    some (seqL [chSeq "Type", wsStar, chSeq "of", wsStar, chSeq "Vehicle",
      colonWsPlus, alphaWsGrp]) ]

/-- `([A-Z0-9]{17})`. -/
def vin17Grp : Rx := .grp 1 (repE 17 (.cls alnumAZ))

def asset_id : List (Option Rx) :=
  [ some (seqL [chSeq "V.I.N.", wsStar, colonWsPlus, vin17Grp]),
    some (seqL [chSeq "VIN", colonWsPlus, vin17Grp]),
    some (seqL [chSeq "Vehicle", wsStar, chSeq "ID", colonWsPlus,
      .grp 1 (plusR true (.cls alnumAZ))]) ]

/-- `([0-9,]+\.?[0-9]*)`. -/
def amtGrp : Rx :=
  .grp 1 (seqL [plusR true (.cls [digItem, .ch ',']), optR true (.lit '.'),
                .starR true clsDigit])

/-- `[:\s]+\$?\s*` followed by the amount group. -/
def amtTail : Rx := seqL [colonWsPlus, optR true (.lit '$'), wsStar, amtGrp]

def estimated_damage : List (Option Rx) :=
  [ some (seqL [chSeq "Damage", wsStar, chSeq "Estimate", amtTail]),
    some (seqL [chSeq "ESTIMATE", wsStar, chSeq "AMOUNT", amtTail]),
    some (seqL [chSeq "Estimated", wsStar, chSeq "Damage", amtTail]),
    some (seqL [chSeq "Amount", amtTail]),
    some (seqL [altL [chSeq "Estimate", chSeq "Damage", chSeq "Amount"], amtTail]) ]

def estimate_amount : List (Option Rx) :=
  [ some (seqL [chSeq "ESTIMATE", wsStar, chSeq "AMOUNT", amtTail]),
    some (seqL [chSeq "Damage", wsStar, chSeq "Estimate", amtTail]),
    some (seqL [chSeq "Estimated", wsStar, chSeq "Damage", amtTail]),
    some (seqL [.lit '$', amtGrp]) ]

def claimant : List (Option Rx) :=
  [ some (seqL [chSeq "Claimant", colonWsPlus, nameGrp, lookNlEnd]),
    some (seqL [chSeq "Driver", wsStar, chSeq "Name", colonWsPlus, nameGrp, lookNlEnd]),
    some (seqL [chSeq "NAME", wsStar, chSeq "OF", wsStar, chSeq "CONTACT",
      colonWsPlus, nameGrp, lookNlEnd]) ]

/-- `(?:\(?[A-Z]?\)?\s*)?`. -/
def contactPre : Rx :=
  optR true (seqL [optR true (.lit '('), optR true (.cls [.rg 'A' 'Z']),
                   optR true (.lit ')'), wsStar])

/-- `([0-9\-\(\)\.\s]{10,})`. -/
def contactNumGrp : Rx :=
  .grp 1 (repAL 10 (.cls ([digItem, .ch '-', .ch '(', .ch ')', .ch '.'] ++ wsItems)))

/-- `([A-Za-z0-9._%+-]+@[A-Za-z0-9.-]+\.[A-Z|a-z]{2,})` — note the literal
`|` inside the final class, as written in the source. -/
def emailGrpBar : Rx :=
  .grp 1 (seqL
    [ plusR true (.cls (itemsAlpha ++ [digItem, .ch '.', .ch '_', .ch '%', .ch '+', .ch '-'])),
      .lit '@',
      plusR true (.cls (itemsAlpha ++ [digItem, .ch '.', .ch '-'])),
      .lit '.',
      repAL 2 (.cls [.rg 'A' 'Z', .ch '|', .rg 'a' 'z']) ])

def contact_details : List (Option Rx) :=
  [ some (seqL [chSeq "Phone", colonWsPlus, contactPre, contactNumGrp]),
    some (seqL [chSeq "PHONE", colonWsPlus, contactPre, contactNumGrp]),
    some (seqL [chSeq "Contact", colonWsPlus, contactPre, contactNumGrp]),
    some (seqL [chSeq "E-MAIL", colonWsPlus, emailGrpBar]),
    some (seqL [chSeq "Email", colonWsPlus, emailGrpBar]) ]

/-- `(?=\s*\n|\s*$)` reused for attachments. -/
def attachments : List (Option Rx) :=
  [ some (seqL [chSeq "Attachments", colonWsPlus, lazyDotGrp, lookNlEnd]),
    some (seqL [chSeq "Documents", wsStar, chSeq "Attached", colonWsPlus,
      lazyDotGrp, lookNlEnd]),
    some (seqL [chSeq "Photos", colonWsPlus, lazyDotGrp, lookNlEnd]) ]

def initial_estimate : List (Option Rx) :=
  [ some (seqL [chSeq "Initial", wsStar, chSeq "Estimate", amtTail]),
    some (seqL [chSeq "Initial", wsStar, chSeq "Assessment", amtTail]) ]

end Patterns

/-! ## src/field_extractor.py — extraction pipeline -/

namespace FieldExtractor

/-- Flags of `_extract_with_patterns` (line 222):
`re.IGNORECASE | re.MULTILINE`. -/
def catalogFlags : ReFlags := { ignoreCase := true, multiline := true }

/-- Lines 224–227: the first capture group (in index order) whose content
is non-empty after stripping yields the value. -/
def firstGroupValue (r : Rx) (m : ReMatch) : Option String :=
  ((List.range (maxGrp r)).map (fun i => i + 1)).findSome? (fun i =>
    match capGet m i with
    | some g =>
      let v := pyStrip (String.mk g)
      if v ≠ "" then some v else none
    | none => none)

/-- Lines 207–232, `FieldExtractor._extract_with_patterns` minus the
per-field cleaning (applied by the caller below): try the patterns in
order, skipping ones whose compilation raises, and return the first
stripped non-empty group of the first pattern that matches with one. -/
def extractRaw (fl : ReFlags) (text : String) (patterns : List (Option Rx)) :
    Option String :=
  patterns.findSome? (fun po =>
    match po with
    | none => none
    | some p =>
      match reSearch fl p text with
      | some m => firstGroupValue p m
      | none => none)

/-- `re.sub(r' {2,}', ' ', ·)`: collapse runs of two or more spaces. -/
def collapseSpaces : Bool → List Char → List Char
  | _, [] => []
  | prev, c :: rest =>
    if c = ' ' then
      if prev then collapseSpaces true rest
      else ' ' :: collapseSpaces true rest
    else c :: collapseSpaces false rest

/-- `re.sub(r'\r\n', '\n', ·)`. -/
def crlfToLf : List Char → List Char
  | '\r' :: '\n' :: rest => '\n' :: crlfToLf rest
  | c :: rest => c :: crlfToLf rest
  | [] => []

/-- `re.sub(r'\n{3,}', '\n\n', ·)`: keep at most two consecutive
newlines; `k` counts the newlines already kept in the current run. -/
def squeezeNl : Nat → List Char → List Char
  | _, [] => []
  | k, c :: rest =>
    if c = '\n' then
      if 2 ≤ k then squeezeNl k rest
      else '\n' :: squeezeNl (k + 1) rest
    else c :: squeezeNl 0 rest

/-- field_extractor.py lines 182–205, `FieldExtractor._normalize_text`. -/
def normalizeText (text : String) : String :=
  if text = "" then ""
  else
    let t1 := String.mk (collapseSpaces false text.data)
    let t2 := String.mk (crlfToLf t1.data)
    let t3 := String.mk (squeezeNl 0 t2.data)
    pyStrip t3

/-! ### Post-processing scans (lines 367–570) -/

def noFlags : ReFlags := {}

/-- Line 392: `re.search(r'\$([0-9,]+\.?[0-9]*)', full_text)` (no flags);
returns `group(1)`. -/
def dollarScan (full_text : String) : Option String :=
  match reSearch noFlags (seqL [.lit '$', Patterns.amtGrp]) full_text with
  | some m => (capGet m 1).map String.mk
  | none => none

/-- Flags of `_extract_vehicle_info`'s section search (line 492):
`re.IGNORECASE | re.DOTALL`. -/
def vsFlags : ReFlags := { ignoreCase := true, dotAll := true }

/-- Flags of the inner vehicle field searches and `_extract_contact_info`:
`re.IGNORECASE`. -/
def ciFlags : ReFlags := { ignoreCase := true }

/-- Lines 485–489: the vehicle-section patterns. -/
def vehicleSectionPats : List Rx :=
  [ seqL [chSeq "VEH", wsStar, .lit '#', .starR false .anyC, chSeq "DESCRIBE DAMAGE"],
    seqL [chSeq "VEHICLE INFORMATION", .starR false .anyC, chSeq "DESCRIBE DAMAGE"],
    seqL [chSeq "YEAR", .starR false .anyC, chSeq "MAKE", .starR false .anyC,
          chSeq "MODEL", .starR false .anyC, chSeq "VIN"] ]

/-- `YEAR\s*[:\s]*([0-9]{4})`. -/
def yearRx : Rx := seqL [chSeq "YEAR", wsStar, colonWsStar, .grp 1 (repE 4 clsDigit)]

/-- `MAKE\s*[:\s]*([A-Za-z\s]+)`. -/
def makeRx : Rx :=
  seqL [chSeq "MAKE", wsStar, colonWsStar, .grp 1 (plusR true (.cls Patterns.alphaWs))]

/-- `MODEL\s*[:\s]*([A-Za-z0-9\s\-]+)`. -/
def modelRx : Rx :=
  seqL [chSeq "MODEL", wsStar, colonWsStar,
        .grp 1 (plusR true (.cls (Patterns.alphaWs ++ [digItem, .ch '-'])))]

/-- `V\.?I\.?N\.?\s*[:\s]*([A-Z0-9]{17})`. -/
def vinRx : Rx :=
  seqL [.lit 'V', optR true (.lit '.'), .lit 'I', optR true (.lit '.'),
        .lit 'N', optR true (.lit '.'), wsStar, colonWsStar, Patterns.vin17Grp]

/-- `PLATE\s*(?:NUMBER|NO|#)\s*[:\s]*([A-Z0-9\-\s]+)`. -/
def plateRx : Rx :=
  seqL [chSeq "PLATE", wsStar, altL [chSeq "NUMBER", chSeq "NO", .lit '#'],
        wsStar, colonWsStar,
        .grp 1 (plusR true (.cls ([.rg 'A' 'Z', .rg '0' '9', .ch '-'] ++ wsItems)))]

/-- The keys `_extract_vehicle_info` can produce. -/
structure VehicleInfo where
  year : Option String := none
  make : Option String := none
  model : Option String := none
  vin : Option String := none
  plate_number : Option String := none

/-- field_extractor.py lines 471–523, `FieldExtractor._extract_vehicle_info`. -/
def extractVehicleInfo (text : String) : VehicleInfo :=
  match vehicleSectionPats.findSome? (fun p => reSearch vsFlags p text) with
  | none => {}
  | some m =>
    let vtext := String.mk m.whole
    { year := (reSearch ciFlags yearRx vtext).bind
        (fun mm => (capGet mm 1).map (fun g => pyStrip (String.mk g))),
      make := (reSearch ciFlags makeRx vtext).bind
        (fun mm => (capGet mm 1).map (fun g => pyStrip (String.mk g))),
      model := (reSearch ciFlags modelRx vtext).bind
        (fun mm => (capGet mm 1).map (fun g => pyStrip (String.mk g))),
      vin := (reSearch ciFlags vinRx vtext).bind
        (fun mm => (capGet mm 1).map (fun g => strUpper (String.mk g))),
      plate_number := (reSearch ciFlags plateRx vtext).bind
        (fun mm => (capGet mm 1).map (fun g => strUpper (pyStrip (String.mk g)))) }

/-- `[-.\s]`. -/
def sepCls : Rx := .cls ([.ch '-', .ch '.'] ++ wsItems)

/-- `(?:\(?\d{3}\)?[-.\s]?)?`. -/
def areaPre : Rx :=
  optR true (seqL [optR true (.lit '('), repE 3 clsDigit, optR true (.lit ')'),
                   optR true sepCls])

/-- `(\d{3}[-.\s]?\d{4})`. -/
def phone7Grp : Rx :=
  .grp 1 (seqL [repE 3 clsDigit, optR true sepCls, repE 4 clsDigit])

/-- Lines 539–546: the phone patterns, in priority order. -/
def phonePats : List Rx :=
  [ seqL [chSeq "Phone", colonWsPlus, areaPre, phone7Grp],
    seqL [chSeq "PHONE", colonWsPlus, areaPre, phone7Grp],
    seqL [chSeq "Contact", colonWsPlus, areaPre, phone7Grp],
    seqL [chSeq "Telephone", colonWsPlus, areaPre, phone7Grp],
    seqL [chSeq "Tel", colonWsPlus, areaPre, phone7Grp],
    seqL [.grp 1 (seqL [repE 3 clsDigit, optR true sepCls, repE 3 clsDigit,
                        optR true sepCls, repE 4 clsDigit]),
          .la (altL [clsWs, .eol, .lit '\n'])] ]

/-- `([a-zA-Z0-9._%+-]+@[a-zA-Z0-9.-]+\.[a-zA-Z]{2,})` (the contact-info
variant, whose final class has no `|`). -/
def emailGrp : Rx :=
  .grp 1 (seqL
    [ plusR true (.cls (Patterns.itemsAlpha ++ [digItem, .ch '.', .ch '_', .ch '%', .ch '+', .ch '-'])),
      .lit '@',
      plusR true (.cls (Patterns.itemsAlpha ++ [digItem, .ch '.', .ch '-'])),
      .lit '.',
      repAL 2 (.cls Patterns.itemsAlpha) ])

/-- Lines 557–562: the email patterns. -/
def emailPats : List Rx :=
  [ seqL [chSeq "Email", colonWsPlus, emailGrp],
    seqL [chSeq "E-MAIL", colonWsPlus, emailGrp],
    seqL [chSeq "Contact", colonWsPlus, emailGrp],
    emailGrp ]

/-- Lines 548–554: first phone pattern whose stripped digits reach ten
characters wins; a shorter match does not stop the loop. -/
def extractContactPhone (text : String) : Option String :=
  phonePats.findSome? (fun p =>
    match reSearch ciFlags p text with
    | some m =>
      match capGet m 1 with
      | some g =>
        let phone := String.mk (g.filter Char.isDigit)
        if 10 ≤ phone.length then some phone else none
      | none => none
    | none => none)

/-- Lines 564–568: first email pattern that matches wins; the value is
lower-cased. -/
def extractContactEmail (text : String) : Option String :=
  emailPats.findSome? (fun p =>
    (reSearch ciFlags p text).bind (fun m =>
      (capGet m 1).map (fun g => strLower (String.mk g))))

/-- Left-biased choice, modelling `dict.update` for a single key. -/
def optOr (a b : Option String) : Option String :=
  match a with
  | some x => some x
  | none => b

/-- Line 405–407: `strip()` every string-valued entry in place. -/
def trimStrings (e : ExtractedFields) : ExtractedFields :=
  { e with
    policy_number := e.policy_number.map pyStrip,
    policyholder_name := e.policyholder_name.map pyStrip,
    effective_dates := e.effective_dates.map pyStrip,
    date_of_loss := e.date_of_loss.map pyStrip,
    time_of_loss := e.time_of_loss.map pyStrip,
    location := e.location.map pyStrip,
    description := e.description.map pyStrip,
    asset_type := e.asset_type.map pyStrip,
    asset_id := e.asset_id.map pyStrip,
    claimant := e.claimant.map pyStrip,
    contact_details := e.contact_details.map pyStrip,
    attachments := e.attachments.map pyStrip,
    claim_type := e.claim_type.map pyStrip,
    year := e.year.map pyStrip,
    make := e.make.map pyStrip,
    model := e.model.map pyStrip,
    vin := e.vin.map pyStrip,
    plate_number := e.plate_number.map pyStrip,
    contact_phone := e.contact_phone.map pyStrip,
    contact_email := e.contact_email.map pyStrip }

/-- field_extractor.py lines 367–409, `FieldExtractor._post_process_fields`. -/
def postProcessFields (extracted : ExtractedFields) (full_text : String) :
    ExtractedFields :=
  -- lines 380–383: sync estimated_damage and estimate_amount
  let e1 :=
    if extracted.estimated_damage.isSome && !extracted.estimate_amount.isSome then
      { extracted with estimate_amount := extracted.estimated_damage }
    else if extracted.estimate_amount.isSome && !extracted.estimated_damage.isSome then
      { extracted with estimated_damage := extracted.estimate_amount }
    else extracted
  -- lines 386–387: infer claim type when the key is absent
  let e2 :=
    if e1.claim_type.isNone then
      { e1 with claim_type := some (inferClaimType (e1.description.getD "")) }
    else e1
  -- lines 390–396: adopt the first dollar literal when the damage key is
  -- absent or falsy
  let e3 :=
    if e2.estimated_damage.getD 0 = 0 then
      match dollarScan full_text with
      | some g =>
        let amount := parseAmount g
        { e2 with estimated_damage := some amount, estimate_amount := some amount }
      | none => e2
    else e2
  -- line 399: `extracted.update(cls._extract_vehicle_info(full_text))`
  let vi := extractVehicleInfo full_text
  let e4 := { e3 with
    year := optOr vi.year e3.year,
    make := optOr vi.make e3.make,
    model := optOr vi.model e3.model,
    vin := optOr vi.vin e3.vin,
    plate_number := optOr vi.plate_number e3.plate_number }
  -- line 402: `extracted.update(cls._extract_contact_info(full_text))`
  let e5 := { e4 with
    contact_phone := optOr (extractContactPhone full_text) e4.contact_phone,
    contact_email := optOr (extractContactEmail full_text) e4.contact_email }
  trimStrings e5

/-- Python truthiness filter of `extract_all_fields` (`if value:`) for
string fields. -/
def putS (o : Option String) : Option String :=
  o.bind (fun s => if s ≠ "" then some s else none)

/-- Python truthiness filter for amount fields. -/
def putQ (o : Option ℚ) : Option ℚ :=
  o.bind (fun q => if q ≠ 0 then some q else none)

/-- field_extractor.py lines 155–180, `FieldExtractor.extract_all_fields`:
normalize, run every catalog field through `_extract_with_patterns` (whose
cleaning step `_clean_field_value` dispatches on the field name), keep
only truthy values, then post-process. -/
def extract_all_fields (document_text : String) : ExtractedFields :=
  let text := normalizeText document_text
  let results : ExtractedFields := {
    policy_number := putS ((extractRaw catalogFlags text Patterns.policy_number).map
      (fun v => strUpper (cleanedValue v))),
    policyholder_name := putS ((extractRaw catalogFlags text Patterns.policyholder_name).map
      (fun v => cleanName (cleanedValue v))),
    effective_dates := putS ((extractRaw catalogFlags text Patterns.effective_dates).map
      cleanedValue),
    date_of_loss := putS ((extractRaw catalogFlags text Patterns.date_of_loss).map
      (fun v => parseDate (cleanedValue v))),
    time_of_loss := putS ((extractRaw catalogFlags text Patterns.time_of_loss).map
      cleanedValue),
    location := putS ((extractRaw catalogFlags text Patterns.location).map
      cleanedValue),
    description := putS ((extractRaw catalogFlags text Patterns.description).map
      (fun v => cleanDescription (cleanedValue v))),
    asset_type := putS ((extractRaw catalogFlags text Patterns.asset_type).map
      cleanedValue),
    asset_id := putS ((extractRaw catalogFlags text Patterns.asset_id).map
      (fun v => strUpper (cleanedValue v))),
    estimated_damage := putQ ((extractRaw catalogFlags text Patterns.estimated_damage).map
      (fun v => parseAmount (cleanedValue v))),
    estimate_amount := putQ ((extractRaw catalogFlags text Patterns.estimate_amount).map
      (fun v => parseAmount (cleanedValue v))),
    claimant := putS ((extractRaw catalogFlags text Patterns.claimant).map
      (fun v => cleanName (cleanedValue v))),
    contact_details := putS ((extractRaw catalogFlags text Patterns.contact_details).map
      cleanedValue),
    attachments := putS ((extractRaw catalogFlags text Patterns.attachments).map
      cleanedValue),
    initial_estimate := putQ ((extractRaw catalogFlags text Patterns.initial_estimate).map
      (fun v => parseAmount (cleanedValue v))) }
  postProcessFields results text

/-- Truthiness of a required field of the dictionary
(`field not in extracted or not extracted.get(field)` negated). -/
def fieldTruthy (f : ExtractedFields) : String → Bool
  | "policy_number" => f.policy_number.getD "" ≠ ""
  | "policyholder_name" => f.policyholder_name.getD "" ≠ ""
  | "date_of_loss" => f.date_of_loss.getD "" ≠ ""
  | "location" => f.location.getD "" ≠ ""
  | "description" => f.description.getD "" ≠ ""
  | "estimated_damage" => f.estimated_damage.getD 0 ≠ 0
  | "claim_type" => f.claim_type.getD "" ≠ ""
  | _ => false

/-- field_extractor.py lines 572–589, `FieldExtractor.identify_missing_fields`. -/
def identify_missing_fields (extracted_fields : ExtractedFields) : List String :=
  Config.REQUIRED_FIELDS.filter (fun field => !fieldTruthy extracted_fields field)

end FieldExtractor

/-! ## src/acord_parser.py — ACORD post-processing (lines 246–293) -/

namespace ACORDParser

open FieldExtractor

/-- acord_parser.py line 265. -/
def acordInjuryKeywords : List String :=
  ["injury", "injured", "hurt", "pain", "hospital", "ambulance"]

/-- `\$([0-9,]+\.?[0-9]*)\s*(?:estimate|damage|amount)`. -/
def acordAmt1 : Rx :=
  seqL [.lit '$', Patterns.amtGrp, wsStar,
        altL [chSeq "estimate", chSeq "damage", chSeq "amount"]]

/-- `Amount[:\s]*\$?\s*([0-9,]+\.?[0-9]*)`. -/
def acordAmt2 : Rx :=
  seqL [chSeq "Amount", colonWsStar, optR true (.lit '$'), wsStar, Patterns.amtGrp]

/-- `([0-9,]+\.?[0-9]*)\s*dollars`. -/
def acordAmt3 : Rx := seqL [Patterns.amtGrp, wsStar, chSeq "dollars"]

/-- `ESTIMATE AMOUNT[:\s]*(.*?)(?:\n|$)` (IGNORECASE, no MULTILINE). -/
def acordAmtLine : Rx :=
  seqL [chSeq "ESTIMATE AMOUNT", colonWsStar, .grp 1 (.starR false .anyC),
        altL [.lit '\n', .eol]]

/-- acord_parser.py lines 246–293, `ACORDParser._post_process_acord_fields`. -/
def postProcessAcordFields (extracted : ExtractedFields) (full_text : String) :
    ExtractedFields :=
  -- lines 259–260: default claim type for ACORD auto forms
  let e1 :=
    if extracted.claim_type.isNone then
      { extracted with claim_type := some "vehicle_damage" }
    else extracted
  -- lines 263–267: injury override from the description
  let e2 :=
    match e1.description with
    | some d =>
      if acordInjuryKeywords.any (fun kw => containsSub (strLower d) kw) then
        { e1 with claim_type := some "injury" }
      else e1
    | none => e1
  -- lines 270–282: alternative estimate patterns when the key is absent
  -- or falsy
  let e3 :=
    if e2.estimate_amount.getD 0 = 0 then
      match [acordAmt1, acordAmt2, acordAmt3].findSome? (fun p =>
          (reSearch ciFlags p full_text).bind (fun m => capGet m 1)) with
      | some g => { e2 with estimate_amount := some (parseAmount (String.mk g)) }
      | none => e2
    else e2
  -- lines 285–291: the structured "ESTIMATE AMOUNT:" line, only when the
  -- key is absent
  if e3.estimate_amount.isNone then
    match (reSearch ciFlags acordAmtLine full_text).bind (fun m => capGet m 1) with
    | some g =>
      let value := pyStrip (String.mk g)
      if value ≠ "" then { e3 with estimate_amount := some (parseAmount value) }
      else e3
    | none => e3
  else e3

end ACORDParser

/-! ## Truthiness predicates (for the key-presence invariant) -/

/-- Python truthiness of an optional string value. -/
def strOk (o : Option String) : Bool :=
  match o with
  | none => true
  | some s => s ≠ ""

/-- An optional string value that stays truthy after stripping. -/
def strStrictOk (o : Option String) : Bool :=
  match o with
  | none => true
  | some s => pyStrip s ≠ ""

/-- Python truthiness of an optional amount value. -/
def amtOk (o : Option ℚ) : Bool :=
  match o with
  | none => true
  | some q => q ≠ 0

/-- The values the pattern-extraction stage can store are truthy; its
strings, being stripped non-empty captures, are truthy even after another
strip. -/
def preTruthy (m : ExtractedFields) : Bool :=
  strStrictOk m.policy_number && strStrictOk m.policyholder_name &&
  strStrictOk m.effective_dates && strStrictOk m.date_of_loss &&
  strStrictOk m.time_of_loss && strStrictOk m.location &&
  strStrictOk m.description && strStrictOk m.asset_type &&
  strStrictOk m.asset_id && strStrictOk m.claimant &&
  strStrictOk m.contact_details && strStrictOk m.attachments &&
  strStrictOk m.claim_type &&
  amtOk m.estimated_damage && amtOk m.estimate_amount && amtOk m.initial_estimate

/-! ## Supporting lemmas -/

theorem joinStr_cons_cons (sep a b : String) (t : List String) :
    joinStr sep (a :: b :: t) = a ++ sep ++ joinStr sep (b :: t) := rfl

theorem str_len_pos_of_ne {s : String} (h : s ≠ "") : 0 < s.length := by
  cases s with
  | mk data =>
    cases data with
    | nil => exact absurd rfl h
    | cons c cs => simp [String.length]

theorem str_ne_empty_of_len {s : String} (h : 0 < s.length) : s ≠ "" := by
  intro he
  subst he
  exact absurd h (by decide)

theorem append_ne_empty_left {a : String} (b : String) (h : a ≠ "") : a ++ b ≠ "" := by
  apply str_ne_empty_of_len
  rw [String.length_append]
  have := str_len_pos_of_ne h
  omega

theorem joinStr_length_ge (sep s : String) (rest : List String) :
    s.length ≤ (joinStr sep (s :: rest)).length := by
  cases rest with
  | nil => simp [joinStr]
  | cons b t =>
    rw [joinStr_cons_cons, String.length_append, String.length_append]
    omega

theorem joinStr_cons_ne_empty (sep s : String) (rest : List String) (h : s ≠ "") :
    joinStr sep (s :: rest) ≠ "" := by
  apply str_ne_empty_of_len
  have h1 := str_len_pos_of_ne h
  have h2 := joinStr_length_ge sep s rest
  omega

theorem isSubList_complete {l₁ l₂ : List Char} (h : l₁ <:+: l₂) :
    isSubList l₁ l₂ = true := by
  induction l₂ with
  | nil =>
    rw [List.infix_nil] at h
    subst h
    rfl
  | cons c rest ih =>
    rcases List.infix_cons_iff.mp h with hp | hi
    · simp [isSubList, List.isPrefixOf_iff_prefix]
      exact Or.inl hp
    · simp [isSubList, ih hi]

theorem infix_of_mem_joinStr (sep : String) {l : List String} {x : String} (hx : x ∈ l) :
    x.data <:+: (joinStr sep l).data := by
  induction l with
  | nil => cases hx
  | cons a t ih =>
    rcases List.mem_cons.mp hx with rfl | hmem
    · cases t with
      | nil => exact ⟨[], [], by simp [joinStr]⟩
      | cons b t2 =>
        refine ⟨[], sep.data ++ (joinStr sep (b :: t2)).data, ?_⟩
        rw [joinStr_cons_cons]
        simp [String.data_append, List.append_assoc]
    · cases t with
      | nil => cases hmem
      | cons b t2 =>
        obtain ⟨s, u, hsu⟩ := ih hmem
        refine ⟨a.data ++ sep.data ++ s, u, ?_⟩
        rw [joinStr_cons_cons]
        simp only [String.data_append, ← hsu, List.append_assoc]

theorem containsSub_of_mem_joinStr {pre sep : String} {l : List String} {x : String}
    (hx : x ∈ l) : containsSub (pre ++ joinStr sep l) x = true := by
  apply isSubList_complete
  obtain ⟨s, u, hsu⟩ := infix_of_mem_joinStr sep hx
  exact ⟨pre.data ++ s, u, by simp only [String.data_append, ← hsu, List.append_assoc]⟩

/-! ## Claims C1 and C2 -/

/-- C1: for every extracted-fields mapping and every non-empty
missing-fields list, `determine_route` returns the Manual Review route
with reasoning exactly the missing-field fragment (so no later rule
contributes anything), and that reasoning names every missing field. -/
theorem c1_missing_gate (f : ExtractedFields) (missing : List String)
    (h : missing ≠ []) :
    RoutingEngine.determine_route f missing =
      ("Manual Review", "Missing required fields: " ++ joinStr ", " missing) ∧
    ∀ x ∈ missing,
      containsSub (RoutingEngine.determine_route f missing).2 x = true := by
  have hroute : RoutingEngine.determine_route f missing =
      ("Manual Review", "Missing required fields: " ++ joinStr ", " missing) := by
    unfold RoutingEngine.determine_route
    rw [if_pos h]
  refine ⟨hroute, fun x hx => ?_⟩
  rw [hroute]
  exact containsSub_of_mem_joinStr hx

/-- C1 witness. -/
theorem c1_missing_gate_witness :
    RoutingEngine.determine_route {} ["policy_number"] =
      ("Manual Review", "Missing required fields: policy_number") ∧
    containsSub
      (RoutingEngine.determine_route {} ["policy_number"]).2 "policy_number" = true := by
  have h := c1_missing_gate {} ["policy_number"] (by decide)
  exact ⟨h.1.trans (by decide), h.2 "policy_number" (by decide)⟩

/-- C2: with no missing fields and a description containing at least one
fraud keyword (substring test on the lower-cased description, exactly as
the code performs it), `determine_route` returns Investigation Flag, for
every damage amount and claim type, with reasoning listing the first at
most three matched keywords. -/
theorem c2_fraud_gate (f : ExtractedFields)
    (h : Config.FRAUD_KEYWORDS.filter
        (fun keyword => containsSub (strLower (f.description.getD "")) keyword) ≠ []) :
    RoutingEngine.determine_route f [] =
      ("Investigation Flag",
        "Fraud indicators detected: " ++ joinStr ", "
          ((Config.FRAUD_KEYWORDS.filter
            (fun keyword =>
              containsSub (strLower (f.description.getD "")) keyword)).take 3)) ∧
    ((Config.FRAUD_KEYWORDS.filter
        (fun keyword =>
          containsSub (strLower (f.description.getD "")) keyword)).take 3).length ≤ 3 := by
  constructor
  · unfold RoutingEngine.determine_route
    rw [if_neg (by simp)]
    dsimp only
    rw [if_pos h]
  · simp [List.length_take]

/-- C2 witness. -/
theorem c2_fraud_gate_witness :
    RoutingEngine.determine_route
      { description := some "Claim looks FRAUDulent and staged" } [] =
      ("Investigation Flag", "Fraud indicators detected: fraud, fraudulent, staged") := by
  have h := (c2_fraud_gate { description := some "Claim looks FRAUDulent and staged" }
    (by decide)).1
  exact h.trans (by decide)

/-! ## Claims C3 and C4 -/

/-- C3: when rules 1–3 do not fire (no missing fields, no fraud keyword
in the lower-cased description, claim type not injury), a strictly
positive damage amount routes Fast-track below the 25,000 threshold and
Standard Processing at or above it, with the reasoning fragment stating
amount, threshold and comparison; a non-positive amount routes Manual
Review with the "Damage amount not specified or could not be extracted"
fragment.  In every case the additional-factor fragments follow. -/
theorem c3_damage_gate (f : ExtractedFields)
    (hfraud : Config.FRAUD_KEYWORDS.filter
        (fun keyword => containsSub (strLower (f.description.getD "")) keyword) = [])
    (hinj : f.claim_type.getD "property_damage" ≠ "injury") :
    (0 < f.estimated_damage.getD 0 →
      f.estimated_damage.getD 0 < Config.FAST_TRACK_THRESHOLD →
      RoutingEngine.determine_route f [] =
        ("Fast-track",
          joinStr ". "
            (("Estimated damage ($" ++ format2 (f.estimated_damage.getD 0) ++
              ") is below $" ++ format0 Config.FAST_TRACK_THRESHOLD ++ " threshold") ::
              RoutingEngine.check_additional_factors f))) ∧
    (0 < f.estimated_damage.getD 0 →
      Config.FAST_TRACK_THRESHOLD ≤ f.estimated_damage.getD 0 →
      RoutingEngine.determine_route f [] =
        ("Standard Processing",
          joinStr ". "
            (("Estimated damage ($" ++ format2 (f.estimated_damage.getD 0) ++
              ") meets or exceeds $" ++ format0 Config.FAST_TRACK_THRESHOLD ++
              " threshold") ::
              RoutingEngine.check_additional_factors f))) ∧
    (f.estimated_damage.getD 0 ≤ 0 →
      RoutingEngine.determine_route f [] =
        ("Manual Review",
          joinStr ". "
            ("Damage amount not specified or could not be extracted" ::
              RoutingEngine.check_additional_factors f))) := by
  unfold RoutingEngine.determine_route
  rw [if_neg (by simp)]
  dsimp only
  rw [hfraud, if_neg (by simp), if_neg hinj]
  refine ⟨fun hd hlt => ?_, fun hd hge => ?_, fun hle => ?_⟩
  · rw [if_pos hd, if_pos hlt]
  · rw [if_pos hd, if_neg (not_lt.mpr hge)]
  · rw [if_neg (not_lt.mpr hle)]

/-- C3 witness. -/
theorem c3_damage_gate_witness :
    RoutingEngine.determine_route { estimated_damage := some 8200 } [] =
      ("Fast-track", "Estimated damage ($8,200.00) is below $25,000 threshold") := by
  have h := (c3_damage_gate { estimated_damage := some 8200 }
    (by decide) (by decide)).1 (by decide) (by decide)
  exact h.trans (by decide)

/-- C4: for every extracted-fields mapping and missing-fields list,
`determine_route` returns one of the five defined routes and a non-empty
reasoning string (the embedding is total, mirroring that no rule in the
source raises on typed field values). -/
theorem c4_route_total (f : ExtractedFields) (missing : List String) :
    (RoutingEngine.determine_route f missing).1 ∈
      ["Fast-track", "Standard Processing", "Specialist Queue",
       "Investigation Flag", "Manual Review"] ∧
    (RoutingEngine.determine_route f missing).2 ≠ "" := by
  unfold RoutingEngine.determine_route
  by_cases hm : missing ≠ []
  · rw [if_pos hm]
    exact ⟨by simp, append_ne_empty_left _ (by decide)⟩
  · rw [if_neg hm]
    dsimp only
    by_cases hf : Config.FRAUD_KEYWORDS.filter
        (fun keyword => containsSub (strLower (f.description.getD "")) keyword) ≠ []
    · rw [if_pos hf]
      exact ⟨by simp, append_ne_empty_left _ (by decide)⟩
    · rw [if_neg hf]
      by_cases hc : f.claim_type.getD "property_damage" = "injury"
      · rw [if_pos hc]
        by_cases hik : Config.INJURY_KEYWORDS.filter
            (fun keyword => containsSub (strLower (f.description.getD "")) keyword) ≠ []
        · rw [if_pos hik]
          exact ⟨by simp, append_ne_empty_left _ (by decide)⟩
        · rw [if_neg hik]
          exact ⟨by simp, by decide⟩
      · rw [if_neg hc]
        by_cases hd : 0 < f.estimated_damage.getD 0
        · by_cases hlt : f.estimated_damage.getD 0 < Config.FAST_TRACK_THRESHOLD
          · rw [if_pos hd, if_pos hlt]
            refine ⟨by simp, joinStr_cons_ne_empty _ _ _ ?_⟩
            exact append_ne_empty_left _ (append_ne_empty_left _
              (append_ne_empty_left _ (append_ne_empty_left _ (by decide))))
          · rw [if_pos hd, if_neg hlt]
            refine ⟨by simp, joinStr_cons_ne_empty _ _ _ ?_⟩
            exact append_ne_empty_left _ (append_ne_empty_left _
              (append_ne_empty_left _ (append_ne_empty_left _ (by decide))))
        · rw [if_neg hd]
          exact ⟨by simp, joinStr_cons_ne_empty _ _ _ (by decide)⟩

/-! ## Claim C5 -/

/-- C5 (amended): if at most one of `estimated_damage` / `estimate_amount`
is present when post-processing begins (which is the situation the
reconciliation step is written for), then after `_post_process_fields`
the two keys hold equal values — both absent, or both present and equal —
and both are present as soon as either was.  When both keys were
extracted independently the pass leaves them untouched and they may
disagree (see the counterexample). -/
theorem c5_synonym_sync (m : ExtractedFields) (text : String)
    (h : ¬ (m.estimated_damage.isSome ∧ m.estimate_amount.isSome)) :
    (FieldExtractor.postProcessFields m text).estimated_damage =
      (FieldExtractor.postProcessFields m text).estimate_amount ∧
    ((m.estimated_damage.isSome ∨ m.estimate_amount.isSome) →
      (FieldExtractor.postProcessFields m text).estimated_damage.isSome) := by
  unfold FieldExtractor.postProcessFields FieldExtractor.trimStrings
  rcases hed : m.estimated_damage with _ | d
  · rcases hea : m.estimate_amount with _ | a
    · by_cases hct : m.claim_type = none <;>
      simp [hed, hea, hct] <;>
      cases hsc : FieldExtractor.dollarScan text <;>
      simp [hed, hea, hsc]
    · by_cases hct : m.claim_type = none <;>
      simp [hed, hea, hct] <;>
      by_cases ha : a = 0 <;>
      simp [hed, hea, ha] <;>
      cases hsc : FieldExtractor.dollarScan text <;>
      simp [hed, hea, hsc]
  · rcases hea : m.estimate_amount with _ | a
    · by_cases hct : m.claim_type = none <;>
      simp [hed, hea, hct] <;>
      by_cases hd : d = 0 <;>
      simp [hed, hea, hd] <;>
      cases hsc : FieldExtractor.dollarScan text <;>
      simp [hed, hea, hsc]
    · exact absurd ⟨by rw [hed]; rfl, by rw [hea]; rfl⟩ h

/-- C5 witness. -/
theorem c5_synonym_sync_witness :
    (FieldExtractor.postProcessFields { estimated_damage := some 5 } "").estimated_damage =
      (FieldExtractor.postProcessFields { estimated_damage := some 5 } "").estimate_amount ∧
    (FieldExtractor.postProcessFields { estimated_damage := some 5 } "").estimated_damage.isSome := by
  have h := c5_synonym_sync { estimated_damage := some 5 } "" (by decide)
  exact ⟨h.1, h.2 (Or.inl (by decide))⟩

/-- C5 counterexample: a document in which both synonym keys are extracted
independently with different values; after the full pipeline (including
post-processing) the two keys are present but unequal, refuting the claim
as stated. -/
theorem c5_synonym_sync_cx :
    (FieldExtractor.extract_all_fields
        "Damage Estimate: $1 ESTIMATE AMOUNT: $2").estimated_damage = some 1 ∧
    (FieldExtractor.extract_all_fields
        "Damage Estimate: $1 ESTIMATE AMOUNT: $2").estimate_amount = some 2 ∧
    ¬ ((1 : ℚ) = 2) := by
  refine ⟨by decide, by decide, by decide⟩

/-! ## Claim C6 -/

/-- C6: `_parse_amount` is total (the embedding is a function, mirroring
the `try`/`except` that swallows every error), always returns a
non-negative value, its stripping step keeps only digits and the decimal
point, and every input whose stripped remainder is not a valid decimal
literal yields exactly 0. -/
theorem c6_parse_amount_total (s : String) :
    0 ≤ FieldExtractor.parseAmount s ∧
    (∀ c ∈ (FieldExtractor.stripNonNumeric s).data, c.isDigit || c = '.') ∧
    (FieldExtractor.isFloatLit (FieldExtractor.stripNonNumeric s) = false →
      FieldExtractor.parseAmount s = 0) := by
  refine ⟨?_, ?_, ?_⟩
  · unfold FieldExtractor.parseAmount
    dsimp only
    split
    · unfold FieldExtractor.decimalVal
      dsimp only
      exact Rat.divInt_nonneg (Int.natCast_nonneg _) (Int.natCast_nonneg _)
    · exact le_refl 0
  · intro c hc
    have hmem : c ∈ s.data.filter (fun c => c.isDigit || c = '.') := by
      simpa [FieldExtractor.stripNonNumeric] using hc
    exact (List.mem_filter.mp hmem).2
  · intro hbad
    unfold FieldExtractor.parseAmount
    simp [hbad]

/-- C6 witness. -/
theorem c6_parse_amount_total_witness :
    0 ≤ FieldExtractor.parseAmount "n/a" ∧
    (∀ c ∈ (FieldExtractor.stripNonNumeric "n/a").data, c.isDigit || c = '.') ∧
    FieldExtractor.parseAmount "n/a" = 0 :=
  ⟨(c6_parse_amount_total "n/a").1, (c6_parse_amount_total "n/a").2.1,
   (c6_parse_amount_total "n/a").2.2 (by decide)⟩

/-! ## Claim C7 -/

/-- C7 (amended): on empty input the normalizer returns the empty string
and no catalog pattern matches, but post-processing still injects the
inferred default claim type, so the extracted mapping is exactly
`claim_type = "property_damage"`; consequently six of the seven required
fields (all but `claim_type`) are reported missing and routing resolves
to Manual Review.  The embedding is total, mirroring that no stage of
this path raises. -/
theorem c7_empty_input :
    FieldExtractor.normalizeText "" = "" ∧
    FieldExtractor.extract_all_fields "" = { claim_type := some "property_damage" } ∧
    FieldExtractor.identify_missing_fields (FieldExtractor.extract_all_fields "") =
      ["policy_number", "policyholder_name", "date_of_loss", "location",
       "description", "estimated_damage"] ∧
    (RoutingEngine.determine_route (FieldExtractor.extract_all_fields "")
      (FieldExtractor.identify_missing_fields
        (FieldExtractor.extract_all_fields ""))).1 = "Manual Review" := by
  refine ⟨rfl, by decide, by decide, by decide⟩

/-- C7 counterexample: the extracted mapping for empty input is not empty
(`claim_type` is present) and the missing-fields list is not the full
required vocabulary, refuting "extraction yields an empty mapping" and
"every one of the seven required fields is reported missing". -/
theorem c7_empty_input_cx :
    (FieldExtractor.extract_all_fields "").claim_type = some "property_damage" ∧
    FieldExtractor.identify_missing_fields (FieldExtractor.extract_all_fields "") ≠
      Config.REQUIRED_FIELDS := by
  refine ⟨by decide, by decide⟩

/-! ## Claim C8 -/

theorem pp_untouched_fields (m : ExtractedFields) (text : String) :
    (FieldExtractor.postProcessFields m text).policy_number = m.policy_number.map pyStrip ∧
    (FieldExtractor.postProcessFields m text).policyholder_name = m.policyholder_name.map pyStrip ∧
    (FieldExtractor.postProcessFields m text).effective_dates = m.effective_dates.map pyStrip ∧
    (FieldExtractor.postProcessFields m text).date_of_loss = m.date_of_loss.map pyStrip ∧
    (FieldExtractor.postProcessFields m text).time_of_loss = m.time_of_loss.map pyStrip ∧
    (FieldExtractor.postProcessFields m text).location = m.location.map pyStrip ∧
    (FieldExtractor.postProcessFields m text).description = m.description.map pyStrip ∧
    (FieldExtractor.postProcessFields m text).asset_type = m.asset_type.map pyStrip ∧
    (FieldExtractor.postProcessFields m text).asset_id = m.asset_id.map pyStrip ∧
    (FieldExtractor.postProcessFields m text).claimant = m.claimant.map pyStrip ∧
    (FieldExtractor.postProcessFields m text).contact_details = m.contact_details.map pyStrip ∧
    (FieldExtractor.postProcessFields m text).attachments = m.attachments.map pyStrip ∧
    (FieldExtractor.postProcessFields m text).claim_type =
      (if m.claim_type = none then
        some (pyStrip (FieldExtractor.inferClaimType (m.description.getD "")))
      else m.claim_type.map pyStrip) ∧
    (FieldExtractor.postProcessFields m text).initial_estimate = m.initial_estimate := by
  unfold FieldExtractor.postProcessFields FieldExtractor.trimStrings
  dsimp only
  split_ifs <;> (try split) <;> simp_all

theorem strOk_map_strip {o : Option String} (h : strStrictOk o = true) :
    strOk (o.map pyStrip) = true := by
  cases o <;> simp_all [strOk, strStrictOk]

theorem infer_strip_ne (d : String) :
    pyStrip (FieldExtractor.inferClaimType d) ≠ "" := by
  simp only [FieldExtractor.inferClaimType]
  repeat' split
  all_goals decide

/-- C8 (amended): the pattern-extraction stage stores only truthy values
(the `if value:` filter, embedded as `putS` / `putQ`), and post-processing
preserves truthiness for every field it does not rewrite, including the
always-truthy inferred `claim_type`.  The invariant does not extend to
the keys post-processing can rewrite: the dollar-literal fallback can set
`estimated_damage` / `estimate_amount` to `0.0`, and the vehicle-info
merge can introduce empty strings (see the counterexample). -/
theorem c8_truthy_after_post (m : ExtractedFields) (text : String)
    (h : preTruthy m = true) :
    (∀ o v, FieldExtractor.putS o = some v → v ≠ "") ∧
    (∀ o q, FieldExtractor.putQ o = some q → q ≠ 0) ∧
    strOk (FieldExtractor.postProcessFields m text).policy_number = true ∧
    strOk (FieldExtractor.postProcessFields m text).policyholder_name = true ∧
    strOk (FieldExtractor.postProcessFields m text).effective_dates = true ∧
    strOk (FieldExtractor.postProcessFields m text).date_of_loss = true ∧
    strOk (FieldExtractor.postProcessFields m text).time_of_loss = true ∧
    strOk (FieldExtractor.postProcessFields m text).location = true ∧
    strOk (FieldExtractor.postProcessFields m text).description = true ∧
    strOk (FieldExtractor.postProcessFields m text).asset_type = true ∧
    strOk (FieldExtractor.postProcessFields m text).asset_id = true ∧
    strOk (FieldExtractor.postProcessFields m text).claimant = true ∧
    strOk (FieldExtractor.postProcessFields m text).contact_details = true ∧
    strOk (FieldExtractor.postProcessFields m text).attachments = true ∧
    strOk (FieldExtractor.postProcessFields m text).claim_type = true ∧
    amtOk (FieldExtractor.postProcessFields m text).initial_estimate = true := by
  obtain ⟨p1, p2, p3, p4, p5, p6, p7, p8, p9, p10, p11, p12, p13, p14⟩ :=
    pp_untouched_fields m text
  simp only [preTruthy, Bool.and_eq_true] at h
  rcases h with ⟨⟨⟨⟨⟨⟨⟨⟨⟨⟨⟨⟨⟨⟨⟨h1, h2⟩, h3⟩, h4⟩, h5⟩, h6⟩, h7⟩, h8⟩, h9⟩,
    h10⟩, h11⟩, h12⟩, h13⟩, h14⟩, h15⟩, h16⟩
  refine ⟨?_, ?_, ?_, ?_, ?_, ?_, ?_, ?_, ?_, ?_, ?_, ?_, ?_, ?_, ?_, ?_⟩
  · intro o v hv
    cases o with
    | none => simp [FieldExtractor.putS] at hv
    | some s =>
      by_cases hs : s = "" <;> simp_all [FieldExtractor.putS]
  · intro o q hq
    cases o with
    | none => simp [FieldExtractor.putQ] at hq
    | some r =>
      by_cases hr : r = 0 <;> simp_all [FieldExtractor.putQ]
  · rw [p1]; exact strOk_map_strip h1
  · rw [p2]; exact strOk_map_strip h2
  · rw [p3]; exact strOk_map_strip h3
  · rw [p4]; exact strOk_map_strip h4
  · rw [p5]; exact strOk_map_strip h5
  · rw [p6]; exact strOk_map_strip h6
  · rw [p7]; exact strOk_map_strip h7
  · rw [p8]; exact strOk_map_strip h8
  · rw [p9]; exact strOk_map_strip h9
  · rw [p10]; exact strOk_map_strip h10
  · rw [p11]; exact strOk_map_strip h11
  · rw [p12]; exact strOk_map_strip h12
  · rw [p13]
    by_cases hct : m.claim_type = none
    · rw [if_pos hct]
      simp [strOk, infer_strip_ne]
    · rw [if_neg hct]
      exact strOk_map_strip h13
  · rw [p14]
    cases hie : m.initial_estimate with
    | none => simp [amtOk]
    | some q => simp_all [amtOk]

/-- C8 witness. -/
theorem c8_truthy_after_post_witness :
    strOk (FieldExtractor.postProcessFields {} "").policy_number = true ∧
    strOk (FieldExtractor.postProcessFields {} "").claim_type = true := by
  obtain ⟨hps, hpq, f1, f2, f3, f4, f5, f6, f7, f8, f9, f10, f11, f12, fct, fie⟩ :=
    c8_truthy_after_post {} "" (by decide)
  exact ⟨f1, fct⟩

/-- C8 counterexample: on the document `"$,"` no pattern stores a value,
but the dollar-literal fallback of post-processing parses the comma to
`0.0` and stores it under both damage keys, so the final mapping contains
keys with falsy values. -/
theorem c8_truthy_after_post_cx :
    (FieldExtractor.extract_all_fields "$,").estimated_damage = some 0 ∧
    (FieldExtractor.extract_all_fields "$,").estimate_amount = some 0 := by
  refine ⟨by decide, by decide⟩

/-! ## Claim C9 -/

theorem accumSentences_le (l : List String) (t : String) (ht : t.length ≤ 1500) :
    (FieldExtractor.accumSentences t l).length ≤ 1500 := by
  induction l generalizing t with
  | nil => simpa [FieldExtractor.accumSentences] using ht
  | cons s rest ih =>
    unfold FieldExtractor.accumSentences
    split
    · apply ih
      rename_i hlt
      rw [String.length_append] at hlt
      rw [String.length_append, String.length_append]
      have hdot : ("." : String).length = 1 := rfl
      omega
    · exact ht

/-- C9 (amended): `_clean_description` truncates only when the cleaned
description exceeds 2000 characters — cleaned descriptions of up to 2000
characters are returned untruncated, which can exceed the claimed
1500-character bound — and when truncation does fire the result is at
most 1503 characters (sentence accumulation stays within 1500; the hard
cut is 1500 characters plus the three-character marker). -/
theorem c9_truncation (desc : String) :
    ((FieldExtractor.cleanDescCore desc).length ≤ 2000 →
      FieldExtractor.cleanDescription desc = FieldExtractor.cleanDescCore desc) ∧
    (2000 < (FieldExtractor.cleanDescCore desc).length →
      (FieldExtractor.cleanDescription desc).length ≤ 1503) := by
  constructor
  · intro hle
    unfold FieldExtractor.cleanDescription
    rw [if_neg (by omega)]
  · intro hgt
    unfold FieldExtractor.cleanDescription
    rw [if_pos hgt]
    show (if FieldExtractor.accumSentences ""
          (FieldExtractor.splitSentences (FieldExtractor.cleanDescCore desc)) ≠ "" then
        FieldExtractor.accumSentences ""
          (FieldExtractor.splitSentences (FieldExtractor.cleanDescCore desc))
      else FieldExtractor.pyTake (FieldExtractor.cleanDescCore desc) 1500 ++ "...").length ≤ 1503
    split
    · have hb := accumSentences_le
        (FieldExtractor.splitSentences (FieldExtractor.cleanDescCore desc)) "" (by decide)
      omega
    · rw [String.length_append]
      have h1 : (FieldExtractor.pyTake (FieldExtractor.cleanDescCore desc) 1500).length ≤ 1500 := by
        show ((FieldExtractor.cleanDescCore desc).data.take 1500).length ≤ 1500
        exact List.length_take_le _ _
      have h3 : ("..." : String).length = 3 := rfl
      omega

/-- C9 witness. -/
theorem c9_truncation_witness :
    FieldExtractor.cleanDescription "Minor fender bender" =
      FieldExtractor.cleanDescCore "Minor fender bender" ∧
    FieldExtractor.cleanDescCore "Minor fender bender" = "Minor fender bender" :=
  ⟨(c9_truncation "Minor fender bender").1 (by decide), by decide⟩

/-- C9 counterexample: a 1501-character description (no whitespace, no
punctuation, no OCR-table hits) is returned unchanged — 1501 characters,
exceeding the claimed 1500-character bound, because the code only
truncates above 2000 characters. -/
theorem c9_truncation_cx :
    (FieldExtractor.cleanDescription (String.mk (List.replicate 1501 'a'))).length = 1501 := by
  decide

/-! ## Claim C10 -/

/-- C10: whenever ACORD pattern extraction produced no `claim_type`,
`_post_process_acord_fields` sets it to `"vehicle_damage"` (never the
generic engine's `"property_damage"` default), overridden to `"injury"`
exactly when an extracted description is present whose lower-cased text
contains one of the six substrings `injury`, `injured`, `hurt`, `pain`,
`hospital`, `ambulance`. -/
theorem c10_acord_claim_type (m : ExtractedFields) (text : String)
    (h : m.claim_type = none) :
    (ACORDParser.postProcessAcordFields m text).claim_type =
      some (match m.description with
        | some d =>
          if ACORDParser.acordInjuryKeywords.any (fun kw => containsSub (strLower d) kw)
          then "injury" else "vehicle_damage"
        | none => "vehicle_damage") ∧
    (ACORDParser.postProcessAcordFields m text).claim_type ≠ some "property_damage" := by
  have hmain : (ACORDParser.postProcessAcordFields m text).claim_type =
      some (match m.description with
        | some d =>
          if ACORDParser.acordInjuryKeywords.any (fun kw => containsSub (strLower d) kw)
          then "injury" else "vehicle_damage"
        | none => "vehicle_damage") := by
    unfold ACORDParser.postProcessAcordFields
    rcases hdesc : m.description with _ | d <;>
      simp [h, hdesc] <;>
      (repeat' split) <;>
      simp_all
  refine ⟨hmain, ?_⟩
  rw [hmain]
  rcases hd : m.description with _ | d
  · show some "vehicle_damage" ≠ some "property_damage"
    simp
  · show some (if ACORDParser.acordInjuryKeywords.any
        (fun kw => containsSub (strLower d) kw) then "injury" else "vehicle_damage") ≠
      some "property_damage"
    split <;> simp

/-- C10 witness. -/
theorem c10_acord_claim_type_witness :
    (ACORDParser.postProcessAcordFields
      { description := some "driver was HURT" } "").claim_type = some "injury" := by
  have h := (c10_acord_claim_type { description := some "driver was HURT" } "" rfl).1
  exact h.trans (by decide)
